import Mathlib

/-!
Shallow embedding of the GENIE 2-D extended Simpson-rule integrator
(`src/Numerical/Simpson2D.cxx`, class `genie::Simpson2D`).

Scalars are modelled as exact rationals (`ℚ`).  The collaborators
`UnifGrid` / `UnifGridDimension`, `FunctionMap` and `GSFunc` are declared in
headers that are not part of this excerpt; they are modelled from the spec
(sections 4.1, 4.2 and the Function-adapter contract) and each such
definition is marked `Modelled from the spec:` in its doc comment.
`Simpson2D::Integrate` and `Simpson2D::SimpsonRule` themselves are
translated line by line from the source.
-/

namespace Genie

/-- Grid spacing mode, mirroring the `kGSpLinear` / `kGSpLoge` enumerators
used by `Simpson2D.cxx`. -/
inductive GridSpacing where
  | kGSpLinear
  | kGSpLoge
deriving DecidableEq

/-- Modelled from the spec: `UnifGridDimension` (not under `src/`).  A 1-D
uniform sampling axis.  Bounds and spacing mode are fixed for one
integration call, so the step and the coordinate of the k-th sample are
functions of the current point count only: `stepAt N` is the step when the
axis holds `N` points, and `coordAt N k` is the (linear-space) coordinate of
sample `k` at that density. -/
structure GridAxis where
  stepAt : ℕ → ℚ
  coordAt : ℕ → ℕ → ℚ

/-- Modelled from the spec: `FunctionMap` (not under `src/`).  It owns the
2-D grid (two axes plus the current per-axis point counts `np0`, `np1`) and
a sparse cache `vals` mapping coordinate tuples (the `vector<double> x`
keys used by `Simpson2D::Integrate`) to recorded scalar values. -/
structure FunctionMap where
  axis0 : GridAxis
  axis1 : GridAxis
  np0 : ℕ
  np1 : ℕ
  vals : List (List ℚ × ℚ)

/-- First entry of an association list with the given key, most recent
first (entries are prepended by `SetValue`). -/
def fmFind (vals : List (List ℚ × ℚ)) (x : List ℚ) : Option ℚ :=
  match vals with
  | [] => none
  | (k, v) :: rest => if k = x then some v else fmFind rest x

/-- Modelled from the spec: `FunctionMap::ValueIsSet(x)` — true iff a value
was already recorded for that exact coordinate tuple. -/
def FunctionMap.ValueIsSet (fm : FunctionMap) (x : List ℚ) : Bool :=
  (fmFind fm.vals x).isSome

/-- Modelled from the spec: `FunctionMap::SetValue(y, x)` — records value
`y` at coordinate tuple `x` (insertion only; callers check `ValueIsSet`
first). -/
def FunctionMap.SetValue (fm : FunctionMap) (y : ℚ) (x : List ℚ) : FunctionMap :=
  { fm with vals := (x, y) :: fm.vals }

/-- Linear-space coordinate of sample `i` along axis 0 at the current
density, `curr_grid(0, i)` in the source. -/
def FunctionMap.x0 (fm : FunctionMap) (i : ℕ) : ℚ :=
  fm.axis0.coordAt fm.np0 i

/-- Linear-space coordinate of sample `j` along axis 1 at the current
density, `curr_grid(1, j)` in the source. -/
def FunctionMap.x1 (fm : FunctionMap) (j : ℕ) : ℚ :=
  fm.axis1.coordAt fm.np1 j

/-- Modelled from the spec: `FunctionMap::Value(pos)` — the value recorded
for the grid point with integer position `(i, j)`; looking up a coordinate
that was never set is a contract violation (a Lookup error in the spec),
modelled as the junk default `0`.  `Simpson2D::SimpsonRule` only reads
positions that the populate step has filled. -/
def FunctionMap.Value (fm : FunctionMap) (i j : ℕ) : ℚ :=
  (fmFind fm.vals [fm.x0 i, fm.x1 j]).getD 0

/-- Modelled from the spec: `FunctionMap::IncreaseGridDensity(np, idim)` —
sets the point count to `np` on the one named axis, or on all axes when no
axis is named (the spec default `dimension = all`, passed as `idim = -1` by
`Simpson2D::Integrate`).  Cached entries are coordinate-keyed and are
preserved. -/
def FunctionMap.IncreaseGridDensity (fm : FunctionMap) (np : ℕ) (idim : ℤ) : FunctionMap :=
  if idim = 0 then { fm with np0 := np }
  else if idim = 1 then { fm with np1 := np }
  else { fm with np0 := np, np1 := np }

/-- Modelled from the spec: the `GSFunc` function adapter — declares its
dimensionality (`NParams`) and is callable on a coordinate vector. -/
structure GSFunc where
  nparams : ℕ
  eval : List ℚ → ℚ

/-- Translated from `Simpson2D::SimpsonRule(func_map)`: for each
row `i` a 1-D pass over axis 1 (`0.5` at `j = 0` and `j = N1-1`, weight
`j % 2 + 1` at interior `j`, scaled by `2*h1/3`), then the same pass over
axis 0 applied to the row sums, scaled by `2*h0/3`. -/
def SimpsonRule (fm : FunctionMap) : ℚ :=
  let N0 := fm.np0
  let N1 := fm.np1
  let h0 := fm.axis0.stepAt N0
  let h1 := fm.axis1.stepAt N1
  let sum1d : ℕ → ℚ := fun i =>
    ((1/2) * fm.Value i 0 + (1/2) * fm.Value i (N1 - 1)
      + ∑ j ∈ Finset.Ico 1 (N1 - 1), fm.Value i j * ((j % 2 + 1 : ℕ) : ℚ))
      * (2 * h1 / 3)
  ((sum1d 0 + sum1d (N0 - 1)) / 2
    + ∑ i ∈ Finset.Ico 1 (N0 - 1), sum1d i * ((i % 2 + 1 : ℕ) : ℚ))
    * (2 * h0 / 3)

/-- The 1-D composite Simpson weight described by the spec: endpoints `×0.5`,
interior points `×(index parity + 1)`. -/
def simpsonWeight (N k : ℕ) : ℚ :=
  if k = 0 ∨ k = N - 1 then 1/2 else ((k % 2 + 1 : ℕ) : ℚ)

/-- The 1-D weighted reduction described by the spec: the weighted sum of
the `N` cached values, scaled by `2*h/3`. -/
def specSimpson1D (N : ℕ) (h : ℚ) (V : ℕ → ℚ) : ℚ :=
  (2 * h / 3) * ∑ k ∈ Finset.range N, simpsonWeight N k * V k

/-- The nested 2-D reduction described by the spec: the 1-D reduction along
axis 1 for each fixed axis-0 index, then the same reduction along axis 0
over those partial sums. -/
def specSimpson2D (fm : FunctionMap) : ℚ :=
  specSimpson1D fm.np0 (fm.axis0.stepAt fm.np0) fun i =>
    specSimpson1D fm.np1 (fm.axis1.stepAt fm.np1) fun j => fm.Value i j

/-- State threaded through the cache-population step: the function map plus
the log of coordinate tuples at which `gsfunc` has been invoked (the
invocations observable through the call-counting stub of spec section 8). -/
structure EvalState where
  fm : FunctionMap
  calls : List (List ℚ)

/-- One grid point of the population loop of `Simpson2D::Integrate`: if no
value is set at `x = [x0, x1]`, evaluate `y = gsfunc(x)`, multiply by
`x[0]*x[1]` when the spacing is `kGSpLoge` (Jacobian of the log-coordinate
change of variables), and record the result. -/
def populatePoint (sp : GridSpacing) (f : GSFunc) (s : EvalState) (x0 x1 : ℚ) : EvalState :=
  let x : List ℚ := [x0, x1]
  if s.fm.ValueIsSet x then s
  else
    let y := f.eval x
    let y := if sp = GridSpacing.kGSpLoge then y * (x0 * x1) else y
    { fm := s.fm.SetValue y x, calls := s.calls ++ [x] }

/-- The grid points visited by the population loop, in source order: `i`
over axis 0 outermost, `j` over axis 1 innermost. -/
def gridPointsList (fm : FunctionMap) : List (ℚ × ℚ) :=
  (List.range fm.np0).flatMap fun i =>
    (List.range fm.np1).map fun j => (fm.x0 i, fm.x1 j)

/-- Population over an explicit list of points (the loop body folded left
over the visit order). -/
def populateList (sp : GridSpacing) (f : GSFunc) (ps : List (ℚ × ℚ)) (s : EvalState) : EvalState :=
  ps.foldl (fun t p => populatePoint sp f t p.1 p.2) s

/-- The cache-population step of one iteration of `Simpson2D::Integrate`:
visit every point of the current grid and fill the unset ones. -/
def populate (sp : GridSpacing) (f : GSFunc) (s : EvalState) : EvalState :=
  populateList sp f (gridPointsList s.fm) s

/-- The numerical error of `Simpson2D::Integrate`, line
`err = 200*TMath::Abs( (sum-sum_old)/(sum+sum_old) );` (in percent). -/
def computedErr (sum sum_old : ℚ) : ℚ :=
  200 * |(sum - sum_old) / (sum + sum_old)|

/-- The density-update prologue of one iteration of `Simpson2D::Integrate`
(with `ndim = 2`), acting on `(n, np, fmap)`: in fast mode every iteration
sets all axes to `2^n + 1`; in slow mode an iteration with `iter % 2 = 0`
sets `np = 2^n + 1` and refines axis `0`, and the following iteration calls
`IncreaseGridDensity(np, -1)` (all axes) with `np` unchanged. -/
def densityStep (fast : Bool) (iter n np : ℕ) (fm : FunctionMap) :
    ℕ × ℕ × FunctionMap :=
  if fast then
    let np' := 2 ^ n + 1
    (n + 1, np', fm.IncreaseGridDensity np' (-1))
  else
    if iter % 2 = 0 then
      let np' := 2 ^ n + 1
      (n + 1, np', fm.IncreaseGridDensity np' 0)
    else
      (n, np, fm.IncreaseGridDensity np (-1))

/-- How `Simpson2D::Integrate` can abort the process: the failed
`assert(ndim==2)`, or `abort()` after exhausting all refinement
iterations. -/
inductive AbortKind where
  | assertFail
  | nonConvergence
deriving DecidableEq

/-- The refinement loop of `Simpson2D::Integrate`, by recursion on the
number of remaining iterations (`fuel = fIMaxConv - iter`).  Each iteration
updates the grid density, populates the cache, computes the Simpson sum,
returns `0` when `sum + sum_old == 0`, returns `sum` when the error is below
`maxErr`, and otherwise continues with `sum_old := sum`.  Exhausting the
fuel is the `abort()` path.  The call log is returned alongside the
result. -/
def integrateLoop (sp : GridSpacing) (fast : Bool) (maxErr : ℚ) (f : GSFunc) :
    ℕ → ℕ → ℕ → ℕ → EvalState → ℚ → Except AbortKind ℚ × List (List ℚ)
  | 0, _iter, _n, _np, s, _sum_old => (Except.error AbortKind.nonConvergence, s.calls)
  | fuel + 1, iter, n, np, s, sum_old =>
    let d := densityStep fast iter n np s.fm
    let s' := populate sp f { fm := d.2.2, calls := s.calls }
    let sum := SimpsonRule s'.fm
    if sum + sum_old = 0 then (Except.ok 0, s'.calls)
    else if computedErr sum sum_old < maxErr then (Except.ok sum, s'.calls)
    else integrateLoop sp fast maxErr f fuel (iter + 1) d.1 d.2.1 s' sum

/-- The configuration of `Simpson2D` as loaded by `LoadConfigData`. -/
structure Simpson2DConfig where
  fIMaxConv : ℕ
  fNo : ℕ
  fMaxPcntErr : ℚ
  fSpacing : GridSpacing
  fFastDensityIncrease : Bool

/-- The grid-density update, cache population and Simpson sum of one
iteration of the loop, as named subexpressions of the loop body: the state
after populating the refreshed grid. -/
def nextState (sp : GridSpacing) (fast : Bool) (f : GSFunc) (iter n np : ℕ)
    (s : EvalState) : EvalState :=
  populate sp f { fm := (densityStep fast iter n np s.fm).2.2, calls := s.calls }

/-- The Simpson quadrature sum computed at one iteration of the loop. -/
def iterSum (sp : GridSpacing) (fast : Bool) (f : GSFunc) (iter n np : ℕ)
    (s : EvalState) : ℚ :=
  SimpsonRule (nextState sp fast f iter n np s).fm

/-- The state at entry of the refinement loop: the function map over the
initial grid with an empty cache, and no function calls made yet. -/
def initState (axis0 axis1 : GridAxis) (init0 init1 : ℕ) : EvalState :=
  { fm := { axis0 := axis0, axis1 := axis1, np0 := init0, np1 := init1, vals := [] },
    calls := [] }

/-- Translated from `Simpson2D::Integrate(gsfunc)`, with its observable
call log.  The dimensionality assertion comes first; the initial grid
(modelled from the spec: built by `UnifGrid(gsfunc, fSpacing)` from the
function's declared domain, which is not part of this excerpt) is passed in
as the two axes and their initial point counts, the cache starts empty,
`sum_old` starts at the sentinel `9999999`, `n` at `fNo` and `np` at
`0`. -/
def Simpson2D.IntegrateRun (cfg : Simpson2DConfig) (axis0 axis1 : GridAxis)
    (init0 init1 : ℕ) (f : GSFunc) : Except AbortKind ℚ × List (List ℚ) :=
  if f.nparams ≠ 2 then (Except.error AbortKind.assertFail, [])
  else
    integrateLoop cfg.fSpacing cfg.fFastDensityIncrease cfg.fMaxPcntErr f
      cfg.fIMaxConv 0 cfg.fNo 0 (initState axis0 axis1 init0 init1) 9999999

/-- The value computed by `Simpson2D::Integrate` (the returned double, or
the abort kind). -/
def Simpson2D.Integrate (cfg : Simpson2DConfig) (axis0 axis1 : GridAxis)
    (init0 init1 : ℕ) (f : GSFunc) : Except AbortKind ℚ :=
  (Simpson2D.IntegrateRun cfg axis0 axis1 init0 init1 f).1

instance instDecEqExcept {ε α : Type} [DecidableEq ε] [DecidableEq α] :
    DecidableEq (Except ε α) := fun x y =>
  match x, y with
  | Except.ok a, Except.ok b =>
    if h : a = b then Decidable.isTrue (by rw [h])
    else Decidable.isFalse (by intro hc; cases hc; exact h rfl)
  | Except.error a, Except.error b =>
    if h : a = b then Decidable.isTrue (by rw [h])
    else Decidable.isFalse (by intro hc; cases hc; exact h rfl)
  | Except.ok _, Except.error _ => Decidable.isFalse (by intro hc; cases hc)
  | Except.error _, Except.ok _ => Decidable.isFalse (by intro hc; cases hc)

/-- A concrete axis with unit step and integer sample coordinates
(`coordAt N k = k`), used by the witnesses. -/
def natAxis : GridAxis :=
  { stepAt := fun _ => 1, coordAt := fun _ k => (k : ℚ) }

/-- A concrete 2-D constant function adapter. -/
def constFunc (c : ℚ) : GSFunc :=
  { nparams := 2, eval := fun _ => c }

/-- A concrete 3×3 function map over `natAxis` holding the values of
`f(x, y) = x * y` at every grid point, used by the witnesses. -/
def fmXY : FunctionMap :=
  { axis0 := natAxis, axis1 := natAxis, np0 := 3, np1 := 3,
    vals := (List.range 3).flatMap fun i =>
      (List.range 3).map fun j => ([(i : ℚ), (j : ℚ)], (i : ℚ) * (j : ℚ)) }

/-- The weighted 1-D sum of the spec agrees with the loop shape of the code
(endpoint terms split off, interior indices `1 ≤ j ≤ N-2`) for every axis
with `N = m + 2` points. -/
theorem simpson1d_weights (m : ℕ) (V : ℕ → ℚ) :
    ∑ k ∈ Finset.range (m + 2), simpsonWeight (m + 2) k * V k
      = (1/2) * V 0 + (1/2) * V (m + 1)
        + ∑ j ∈ Finset.Ico 1 (m + 1), V j * ((j % 2 + 1 : ℕ) : ℚ) := by
  rw [Finset.sum_range_succ, Finset.sum_range_succ']
  have h0 : simpsonWeight (m + 2) 0 = 1/2 := by
    simp [simpsonWeight]
  have hl : simpsonWeight (m + 2) (m + 1) = 1/2 := by
    simp [simpsonWeight]
  have hi : ∀ t ∈ Finset.range m,
      simpsonWeight (m + 2) (t + 1) * V (t + 1)
        = V (t + 1) * (((t + 1) % 2 + 1 : ℕ) : ℚ) := by
    intro t ht
    have htm : t < m := Finset.mem_range.mp ht
    have hc : ¬(t + 1 = 0 ∨ t + 1 = (m + 2) - 1) := by omega
    simp only [simpsonWeight, if_neg hc]
    rw [mul_comm]
  rw [Finset.sum_congr rfl hi, h0, hl]
  rw [Finset.sum_Ico_eq_sum_range]
  simp only [Nat.add_sub_cancel]
  have hsh : ∀ t ∈ Finset.range m,
      V (1 + t) * (((1 + t) % 2 + 1 : ℕ) : ℚ)
        = V (t + 1) * (((t + 1) % 2 + 1 : ℕ) : ℚ) := by
    intro t _
    rw [add_comm 1 t]
  rw [Finset.sum_congr rfl hsh]
  ring

/-- The spec's 1-D reduction, rewritten to the code's loop shape. -/
theorem specSimpson1D_eq (m : ℕ) (h : ℚ) (V : ℕ → ℚ) :
    specSimpson1D (m + 2) h V
      = ((1/2) * V 0 + (1/2) * V (m + 1)
          + ∑ j ∈ Finset.Ico 1 (m + 1), V j * ((j % 2 + 1 : ℕ) : ℚ)) * (2 * h / 3) := by
  rw [specSimpson1D, simpson1d_weights]
  ring

/-- C1: for every `FunctionMap` over a 2-D grid (with at least two points
per axis, as every `2^n + 1`-point axis has), `SimpsonRule` returns the
nested 1-D composite Simpson reduction described by the spec: the weighted
reduction (weight `0.5` at the endpoints, `j % 2 + 1` at interior `j`,
scaled by `2*h1/3`) along axis 1 for each fixed axis-0 index, then the same
reduction (scaled by `2*h0/3`) along axis 0 over those partial sums. -/
theorem C1_simpsonRule_eq_spec (fm : FunctionMap)
    (h0 : 2 ≤ fm.np0) (h1 : 2 ≤ fm.np1) :
    SimpsonRule fm = specSimpson2D fm := by
  obtain ⟨m0, e0⟩ : ∃ m, fm.np0 = m + 2 := ⟨fm.np0 - 2, by omega⟩
  obtain ⟨m1, e1⟩ : ∃ m, fm.np1 = m + 2 := ⟨fm.np1 - 2, by omega⟩
  have r0 : m0 + 2 - 1 = m0 + 1 := by omega
  have r1 : m1 + 2 - 1 = m1 + 1 := by omega
  simp only [SimpsonRule, specSimpson2D, e0, e1, r0, r1, specSimpson1D_eq]
  ring

/-- Witness for C1 at a concrete 3×3 map: the hypotheses hold and the two
reductions agree on `f(x, y) = x * y` over `[0, 2] × [0, 2]` (both give the
exact integral `4` there). -/
theorem C1_witness :
    2 ≤ fmXY.np0 ∧ 2 ≤ fmXY.np1 ∧ SimpsonRule fmXY = specSimpson2D fmXY ∧
      SimpsonRule fmXY = 4 :=
  ⟨by decide, by decide,
    C1_simpsonRule_eq_spec fmXY (by decide) (by decide), by
      norm_num [SimpsonRule, fmXY, natAxis, FunctionMap.Value, FunctionMap.x0,
        FunctionMap.x1, fmFind, List.range_succ, Finset.sum_Ico_eq_sum_range,
        Finset.sum_range_succ]⟩

/-- The value recorded for a fresh grid point by the population step: the
raw function value, with the Jacobian factor `x0 * x1` when the spacing is
logarithmic. -/
def corrVal (sp : GridSpacing) (f : GSFunc) (x0 x1 : ℚ) : ℚ :=
  if sp = GridSpacing.kGSpLoge then f.eval [x0, x1] * (x0 * x1) else f.eval [x0, x1]

theorem populateList_nil (sp : GridSpacing) (f : GSFunc) (s : EvalState) :
    populateList sp f [] s = s := rfl

theorem populateList_cons (sp : GridSpacing) (f : GSFunc) (p : ℚ × ℚ)
    (ps : List (ℚ × ℚ)) (s : EvalState) :
    populateList sp f (p :: ps) s = populateList sp f ps (populatePoint sp f s p.1 p.2) := rfl

theorem populatePoint_of_set {sp : GridSpacing} {f : GSFunc} {s : EvalState} {x0 x1 : ℚ}
    (h : s.fm.ValueIsSet [x0, x1] = true) :
    populatePoint sp f s x0 x1 = s := by
  simp [populatePoint, h]

theorem populatePoint_of_not_set {sp : GridSpacing} {f : GSFunc} {s : EvalState} {x0 x1 : ℚ}
    (h : s.fm.ValueIsSet [x0, x1] = false) :
    populatePoint sp f s x0 x1 =
      { fm := s.fm.SetValue (corrVal sp f x0 x1) [x0, x1],
        calls := s.calls ++ [[x0, x1]] } := by
  simp [populatePoint, h, corrVal]

theorem fmFind_SetValue (fm : FunctionMap) (y : ℚ) (x z : List ℚ) :
    fmFind (fm.SetValue y x).vals z = if x = z then some y else fmFind fm.vals z := by
  simp [FunctionMap.SetValue, fmFind]

theorem ValueIsSet_SetValue (fm : FunctionMap) (y : ℚ) (x z : List ℚ) :
    (fm.SetValue y x).ValueIsSet z = true ↔ x = z ∨ fm.ValueIsSet z = true := by
  by_cases hx : x = z <;>
    simp [FunctionMap.ValueIsSet, fmFind_SetValue, hx]

theorem ValueIsSet_SetValue_false (fm : FunctionMap) (y : ℚ) (x z : List ℚ) :
    (fm.SetValue y x).ValueIsSet z = false ↔ x ≠ z ∧ fm.ValueIsSet z = false := by
  by_cases hx : x = z <;>
    simp [FunctionMap.ValueIsSet, fmFind_SetValue, hx]

theorem populatePoint_grid (sp : GridSpacing) (f : GSFunc) (s : EvalState) (x0 x1 : ℚ) :
    (populatePoint sp f s x0 x1).fm.axis0 = s.fm.axis0 ∧
    (populatePoint sp f s x0 x1).fm.axis1 = s.fm.axis1 ∧
    (populatePoint sp f s x0 x1).fm.np0 = s.fm.np0 ∧
    (populatePoint sp f s x0 x1).fm.np1 = s.fm.np1 := by
  cases hb : s.fm.ValueIsSet [x0, x1] with
  | true => rw [populatePoint_of_set hb]; exact ⟨rfl, rfl, rfl, rfl⟩
  | false => rw [populatePoint_of_not_set hb]; exact ⟨rfl, rfl, rfl, rfl⟩

theorem populateList_grid (sp : GridSpacing) (f : GSFunc) (ps : List (ℚ × ℚ)) :
    ∀ s : EvalState,
      (populateList sp f ps s).fm.axis0 = s.fm.axis0 ∧
      (populateList sp f ps s).fm.axis1 = s.fm.axis1 ∧
      (populateList sp f ps s).fm.np0 = s.fm.np0 ∧
      (populateList sp f ps s).fm.np1 = s.fm.np1 := by
  induction ps with
  | nil => intro s; exact ⟨rfl, rfl, rfl, rfl⟩
  | cons p ps ih =>
    intro s
    rw [populateList_cons]
    obtain ⟨a0, a1, b0, b1⟩ := ih (populatePoint sp f s p.1 p.2)
    obtain ⟨c0, c1, d0, d1⟩ := populatePoint_grid sp f s p.1 p.2
    exact ⟨a0.trans c0, a1.trans c1, b0.trans d0, b1.trans d1⟩

theorem ValueIsSet_populateList (sp : GridSpacing) (f : GSFunc) (ps : List (ℚ × ℚ)) :
    ∀ (s : EvalState) (z : List ℚ),
      (populateList sp f ps s).fm.ValueIsSet z = true ↔
        s.fm.ValueIsSet z = true ∨ ∃ p ∈ ps, z = [p.1, p.2] := by
  induction ps with
  | nil => intro s z; simp [populateList_nil]
  | cons p ps ih =>
    intro s z
    rw [populateList_cons]
    cases hb : s.fm.ValueIsSet [p.1, p.2] with
    | true =>
      rw [populatePoint_of_set hb, ih]
      simp only [List.mem_cons]
      constructor
      · rintro (hx | ⟨q, hq, rfl⟩)
        · exact Or.inl hx
        · exact Or.inr ⟨q, Or.inr hq, rfl⟩
      · rintro (hx | ⟨q, hq, rfl⟩)
        · exact Or.inl hx
        · rcases hq with rfl | hq'
          · exact Or.inl hb
          · exact Or.inr ⟨q, hq', rfl⟩
    | false =>
      rw [populatePoint_of_not_set hb, ih]
      simp only [ValueIsSet_SetValue, List.mem_cons]
      constructor
      · rintro ((rfl | hx) | ⟨q, hq, rfl⟩)
        · exact Or.inr ⟨p, Or.inl rfl, rfl⟩
        · exact Or.inl hx
        · exact Or.inr ⟨q, Or.inr hq, rfl⟩
      · rintro (hx | ⟨q, hq, rfl⟩)
        · exact Or.inl (Or.inr hx)
        · rcases hq with rfl | hq'
          · exact Or.inl (Or.inl rfl)
          · exact Or.inr ⟨q, hq', rfl⟩

theorem mem_calls_populateList (sp : GridSpacing) (f : GSFunc) (ps : List (ℚ × ℚ)) :
    ∀ (s : EvalState) (z : List ℚ),
      z ∈ (populateList sp f ps s).calls ↔
        z ∈ s.calls ∨ ∃ p ∈ ps, z = [p.1, p.2] ∧ s.fm.ValueIsSet z = false := by
  induction ps with
  | nil => intro s z; simp [populateList_nil]
  | cons p ps ih =>
    intro s z
    rw [populateList_cons]
    cases hb : s.fm.ValueIsSet [p.1, p.2] with
    | true =>
      rw [populatePoint_of_set hb, ih]
      simp only [List.mem_cons]
      constructor
      · rintro (hx | ⟨q, hq, rfl, hset⟩)
        · exact Or.inl hx
        · exact Or.inr ⟨q, Or.inr hq, rfl, hset⟩
      · rintro (hx | ⟨q, hq, rfl, hset⟩)
        · exact Or.inl hx
        · rcases hq with rfl | hq'
          · rw [hb] at hset; cases hset
          · exact Or.inr ⟨q, hq', rfl, hset⟩
    | false =>
      rw [populatePoint_of_not_set hb, ih]
      simp only [List.mem_append, List.mem_cons, List.mem_nil_iff, or_false,
        ValueIsSet_SetValue_false]
      constructor
      · rintro ((hx | rfl) | ⟨q, hq, rfl, hne, hset⟩)
        · exact Or.inl hx
        · exact Or.inr ⟨p, Or.inl rfl, rfl, hb⟩
        · exact Or.inr ⟨q, Or.inr hq, rfl, hset⟩
      · rintro (hx | ⟨q, hq, rfl, hset⟩)
        · exact Or.inl (Or.inl hx)
        · by_cases hz : [p.1, p.2] = [q.1, q.2]
          · exact Or.inl (Or.inr hz.symm)
          · rcases hq with rfl | hq'
            · exact absurd rfl hz
            · exact Or.inr ⟨q, hq', rfl, hz, hset⟩

theorem fmFind_populateList_of_set (sp : GridSpacing) (f : GSFunc) (ps : List (ℚ × ℚ)) :
    ∀ (s : EvalState) (z : List ℚ), s.fm.ValueIsSet z = true →
      fmFind (populateList sp f ps s).fm.vals z = fmFind s.fm.vals z := by
  induction ps with
  | nil => intro s z _; rw [populateList_nil]
  | cons p ps ih =>
    intro s z hz
    rw [populateList_cons]
    cases hb : s.fm.ValueIsSet [p.1, p.2] with
    | true => rw [populatePoint_of_set hb]; exact ih s z hz
    | false =>
      rw [populatePoint_of_not_set hb]
      have hne : [p.1, p.2] ≠ z := by
        intro he
        rw [he, hz] at hb
        cases hb
      have hz' : (s.fm.SetValue (corrVal sp f p.1 p.2) [p.1, p.2]).ValueIsSet z = true :=
        (ValueIsSet_SetValue _ _ _ _).mpr (Or.inr hz)
      rw [ih _ z hz', fmFind_SetValue, if_neg hne]

theorem fmFind_populateList_of_new (sp : GridSpacing) (f : GSFunc) (ps : List (ℚ × ℚ)) :
    ∀ (s : EvalState) (x0 x1 : ℚ), s.fm.ValueIsSet [x0, x1] = false → (x0, x1) ∈ ps →
      fmFind (populateList sp f ps s).fm.vals [x0, x1] = some (corrVal sp f x0 x1) := by
  induction ps with
  | nil => intro s x0 x1 _ hmem; cases hmem
  | cons p ps ih =>
    intro s x0 x1 hset hmem
    rw [populateList_cons]
    cases hb : s.fm.ValueIsSet [p.1, p.2] with
    | true =>
      rw [populatePoint_of_set hb]
      have hne : (x0, x1) ≠ p := by
        rintro rfl
        rw [hset] at hb
        cases hb
      exact ih s x0 x1 hset (List.mem_cons.mp hmem |>.resolve_left hne)
    | false =>
      rw [populatePoint_of_not_set hb]
      by_cases hp : (x0, x1) = p
      · obtain rfl : p = (x0, x1) := hp.symm
        have hz' : (s.fm.SetValue (corrVal sp f x0 x1) [x0, x1]).ValueIsSet [x0, x1] = true :=
          (ValueIsSet_SetValue _ _ _ _).mpr (Or.inl rfl)
        rw [fmFind_populateList_of_set sp f ps _ _ hz', fmFind_SetValue, if_pos rfl]
      · have hne : [p.1, p.2] ≠ [x0, x1] := by
          intro he
          apply hp
          injection he with h1 h2
          injection h2 with h2 _
          exact Prod.ext h1.symm h2.symm
        have hset' : (s.fm.SetValue (corrVal sp f p.1 p.2) [p.1, p.2]).ValueIsSet [x0, x1] = false :=
          (ValueIsSet_SetValue_false _ _ _ _).mpr ⟨hne, hset⟩
        exact ih _ x0 x1 hset' (List.mem_cons.mp hmem |>.resolve_left hp)

theorem gridPointsList_populateList (sp : GridSpacing) (f : GSFunc)
    (ps : List (ℚ × ℚ)) (s : EvalState) :
    gridPointsList (populateList sp f ps s).fm = gridPointsList s.fm := by
  obtain ⟨a0, a1, b0, b1⟩ := populateList_grid sp f ps s
  simp [gridPointsList, FunctionMap.x0, FunctionMap.x1, a0, a1, b0, b1]

/-- C6: during cache population, every grid point `(x0, x1)` that is not
yet in the map gets evaluated, and the value stored at it is the raw
function value times `x0 * x1` when the spacing mode is logarithmic, and
the unmodified raw value when the spacing mode is linear. -/
theorem C6_log_jacobian (sp : GridSpacing) (f : GSFunc) (s : EvalState) (x0 x1 : ℚ)
    (hgrid : (x0, x1) ∈ gridPointsList s.fm)
    (hset : s.fm.ValueIsSet [x0, x1] = false) :
    [x0, x1] ∈ (populate sp f s).calls ∧
    (sp = GridSpacing.kGSpLoge →
      fmFind (populate sp f s).fm.vals [x0, x1] = some (f.eval [x0, x1] * (x0 * x1))) ∧
    (sp = GridSpacing.kGSpLinear →
      fmFind (populate sp f s).fm.vals [x0, x1] = some (f.eval [x0, x1])) := by
  unfold populate
  refine ⟨?_, ?_, ?_⟩
  · exact (mem_calls_populateList sp f _ s [x0, x1]).mpr
      (Or.inr ⟨(x0, x1), hgrid, rfl, hset⟩)
  · intro hsp
    rw [fmFind_populateList_of_new sp f _ s x0 x1 hset hgrid]
    simp [corrVal, hsp]
  · intro hsp
    rw [fmFind_populateList_of_new sp f _ s x0 x1 hset hgrid]
    simp [corrVal, hsp]

/-- Witness for C6 on a concrete 2×2 grid with an empty cache: the point
`(1, 1)` is unset, and after population in `kGSpLoge` mode the map holds
the raw value of the constant function `5` times `1 * 1` there. -/
theorem C6_witness :
    ((1 : ℚ), (1 : ℚ)) ∈ gridPointsList (initState natAxis natAxis 2 2).fm ∧
    (initState natAxis natAxis 2 2).fm.ValueIsSet [1, 1] = false ∧
    fmFind (populate GridSpacing.kGSpLoge (constFunc 5)
        (initState natAxis natAxis 2 2)).fm.vals [1, 1] = some (5 * (1 * 1)) :=
  ⟨by decide, by decide,
    (C6_log_jacobian GridSpacing.kGSpLoge (constFunc 5)
        (initState natAxis natAxis 2 2) 1 1 (by decide) (by decide)).2.1 rfl⟩

/-- C9: the population step invokes the function only at coordinates whose
value is not yet set, and every invocation is recorded in the map: no
coordinate already present is ever re-invoked, running the population step
a second time performs no invocation at all, and the invariant that a
coordinate is in the map iff it has been evaluated is preserved (the new
evaluated set being the old one extended by exactly this step's calls). -/
theorem C9_cache_idempotent (sp : GridSpacing) (f : GSFunc) (fm : FunctionMap) :
    (∀ x, fm.ValueIsSet x = true → x ∉ (populate sp f ⟨fm, []⟩).calls) ∧
    (∀ x, x ∈ (populate sp f ⟨fm, []⟩).calls →
      (populate sp f ⟨fm, []⟩).fm.ValueIsSet x = true) ∧
    (populate sp f ⟨(populate sp f ⟨fm, []⟩).fm, []⟩).calls = [] ∧
    (∀ E : List (List ℚ), (∀ x, fm.ValueIsSet x = true ↔ x ∈ E) →
      ∀ x, (populate sp f ⟨fm, []⟩).fm.ValueIsSet x = true ↔
        x ∈ E ∨ x ∈ (populate sp f ⟨fm, []⟩).calls) := by
  refine ⟨?_, ?_, ?_, ?_⟩
  · intro x hx hmem
    unfold populate at hmem
    rcases (mem_calls_populateList sp f _ _ x).mp hmem with h0 | ⟨p, _, _, hset⟩
    · cases h0
    · rw [hx] at hset
      cases hset
  · intro x hmem
    unfold populate at hmem ⊢
    rcases (mem_calls_populateList sp f _ _ x).mp hmem with h0 | ⟨p, hp, hxp, _⟩
    · cases h0
    · exact (ValueIsSet_populateList sp f _ _ x).mpr (Or.inr ⟨p, hp, hxp⟩)
  · unfold populate
    rw [List.eq_nil_iff_forall_not_mem]
    intro x hmem
    rw [gridPointsList_populateList] at hmem
    rcases (mem_calls_populateList sp f _ _ x).mp hmem with h0 | ⟨p, hp, rfl, hset⟩
    · cases h0
    · have hin : (populateList sp f (gridPointsList (⟨fm, []⟩ : EvalState).fm)
          ⟨fm, []⟩).fm.ValueIsSet [p.1, p.2] = true :=
        (ValueIsSet_populateList sp f _ _ _).mpr (Or.inr ⟨p, hp, rfl⟩)
      rw [hin] at hset
      cases hset
  · intro E hE x
    unfold populate
    rw [ValueIsSet_populateList, mem_calls_populateList]
    constructor
    · rintro (hx | ⟨p, hp, rfl⟩)
      · exact Or.inl ((hE _).mp hx)
      · cases hbx : fm.ValueIsSet [p.1, p.2] with
        | true => exact Or.inl ((hE _).mp hbx)
        | false => exact Or.inr (Or.inr ⟨p, hp, rfl, rfl⟩)
    · rintro (hx | (h0 | ⟨p, hp, rfl, _⟩))
      · exact Or.inl ((hE _).mpr hx)
      · cases h0
      · exact Or.inr ⟨p, hp, rfl⟩

/-- Witness for C9 at a concrete already-populated map: the coordinate
`[0, 0]` is present in `fmXY`, and a population run over `fmXY` never
invokes the function there. -/
theorem C9_witness :
    fmXY.ValueIsSet [0, 0] = true ∧
    [0, 0] ∉ (populate GridSpacing.kGSpLinear (constFunc 3) ⟨fmXY, []⟩).calls :=
  ⟨by decide, (C9_cache_idempotent GridSpacing.kGSpLinear (constFunc 3) fmXY).1
    [0, 0] (by decide)⟩

theorem integrateLoop_succ (sp : GridSpacing) (fast : Bool) (maxErr : ℚ) (f : GSFunc)
    (fuel iter n np : ℕ) (s : EvalState) (sum_old : ℚ) :
    integrateLoop sp fast maxErr f (fuel + 1) iter n np s sum_old =
      (if iterSum sp fast f iter n np s + sum_old = 0 then
        (Except.ok 0, (nextState sp fast f iter n np s).calls)
      else if computedErr (iterSum sp fast f iter n np s) sum_old < maxErr then
        (Except.ok (iterSum sp fast f iter n np s), (nextState sp fast f iter n np s).calls)
      else integrateLoop sp fast maxErr f fuel (iter + 1)
        (densityStep fast iter n np s.fm).1 (densityStep fast iter n np s.fm).2.1
        (nextState sp fast f iter n np s) (iterSum sp fast f iter n np s)) := rfl

theorem linear_ne_loge : (GridSpacing.kGSpLinear = GridSpacing.kGSpLoge) = False := by
  simp

/-- Evaluation helper for the witnesses: one fast iteration from a 2-point
`natAxis` grid (initial exponent `n = 0`) on the constant function `c`
yields the Simpson sum `4*c/9`. -/
theorem iterSum_const22 (c : ℚ) :
    iterSum GridSpacing.kGSpLinear true (constFunc c) 0 0 0 (initState natAxis natAxis 0 0)
      = 4 * c / 9 := by
  norm_num [iterSum, nextState, densityStep, FunctionMap.IncreaseGridDensity, populate,
    gridPointsList, populateList, populatePoint, FunctionMap.ValueIsSet, FunctionMap.SetValue,
    fmFind, FunctionMap.x0, FunctionMap.x1, natAxis, initState, constFunc, SimpsonRule,
    FunctionMap.Value, List.range_succ, Finset.sum_Ico_eq_sum_range, Finset.sum_range_succ,
    linear_ne_loge]
  ring

/-- C4: at any iteration with `sum + sum_old ≠ 0`, the loop returns the
current Simpson sum as soon as the computed error is strictly below the
threshold, and otherwise continues into the next iteration with
`sum_old := sum`. -/
theorem C4_convergence_step (sp : GridSpacing) (fast : Bool) (maxErr : ℚ) (f : GSFunc)
    (fuel iter n np : ℕ) (s : EvalState) (sum_old : ℚ)
    (hz : iterSum sp fast f iter n np s + sum_old ≠ 0) :
    (computedErr (iterSum sp fast f iter n np s) sum_old < maxErr →
      integrateLoop sp fast maxErr f (fuel + 1) iter n np s sum_old =
        (Except.ok (iterSum sp fast f iter n np s), (nextState sp fast f iter n np s).calls)) ∧
    (¬ computedErr (iterSum sp fast f iter n np s) sum_old < maxErr →
      integrateLoop sp fast maxErr f (fuel + 1) iter n np s sum_old =
        integrateLoop sp fast maxErr f fuel (iter + 1)
          (densityStep fast iter n np s.fm).1 (densityStep fast iter n np s.fm).2.1
          (nextState sp fast f iter n np s) (iterSum sp fast f iter n np s)) := by
  constructor
  · intro he
    rw [integrateLoop_succ, if_neg hz, if_pos he]
  · intro he
    rw [integrateLoop_succ, if_neg hz, if_neg he]

/-- Witness for C4 at a concrete non-converging iteration (threshold `0`):
the zero-sum guard does not fire, the error is not below `0`, and the loop
recurses with the current sum as the new previous sum. -/
theorem C4_witness :
    iterSum GridSpacing.kGSpLinear true (constFunc 1) 0 0 0 (initState natAxis natAxis 0 0)
        + 9999999 ≠ 0 ∧
    ¬ computedErr (iterSum GridSpacing.kGSpLinear true (constFunc 1) 0 0 0
        (initState natAxis natAxis 0 0)) 9999999 < 0 ∧
    integrateLoop GridSpacing.kGSpLinear true 0 (constFunc 1) 1 0 0 0
        (initState natAxis natAxis 0 0) 9999999 =
      integrateLoop GridSpacing.kGSpLinear true 0 (constFunc 1) 0 1
        (densityStep true 0 0 0 (initState natAxis natAxis 0 0).fm).1
        (densityStep true 0 0 0 (initState natAxis natAxis 0 0).fm).2.1
        (nextState GridSpacing.kGSpLinear true (constFunc 1) 0 0 0
          (initState natAxis natAxis 0 0))
        (iterSum GridSpacing.kGSpLinear true (constFunc 1) 0 0 0
          (initState natAxis natAxis 0 0)) := by
  have h1 : iterSum GridSpacing.kGSpLinear true (constFunc 1) 0 0 0
      (initState natAxis natAxis 0 0) + 9999999 ≠ 0 := by
    rw [iterSum_const22]
    norm_num
  have h2 : ¬ computedErr (iterSum GridSpacing.kGSpLinear true (constFunc 1) 0 0 0
      (initState natAxis natAxis 0 0)) 9999999 < 0 := by
    apply not_lt.mpr
    unfold computedErr
    positivity
  exact ⟨h1, h2,
    (C4_convergence_step GridSpacing.kGSpLinear true 0 (constFunc 1) 0 0 0 0
      (initState natAxis natAxis 0 0) 9999999 h1).2 h2⟩

/-- The `(previous sum, Simpson sum)` pair of every iteration of the
refinement loop, in execution order, continued past any early return: the
state evolution (grid densification, cache population, `sum_old := sum`)
does not depend on the guard or the convergence test, so the iterations a
run actually executes are exactly a prefix of this list.  This observation
function ties statements about `Integrate`'s result to the error values of
its own run. -/
def iterTrace (sp : GridSpacing) (fast : Bool) (f : GSFunc) :
    ℕ → ℕ → ℕ → ℕ → EvalState → ℚ → List (ℚ × ℚ)
  | 0, _iter, _n, _np, _s, _sum_old => []
  | fuel + 1, iter, n, np, s, sum_old =>
    (sum_old, iterSum sp fast f iter n np s) ::
      iterTrace sp fast f fuel (iter + 1) (densityStep fast iter n np s.fm).1
        (densityStep fast iter n np s.fm).2.1 (nextState sp fast f iter n np s)
        (iterSum sp fast f iter n np s)

theorem integrateLoop_abort_of_trace (sp : GridSpacing) (fast : Bool) (maxErr : ℚ)
    (f : GSFunc) : ∀ (fuel iter n np : ℕ) (s : EvalState) (sum_old : ℚ),
    (∀ p ∈ iterTrace sp fast f fuel iter n np s sum_old,
      p.2 + p.1 ≠ 0 ∧ ¬ computedErr p.2 p.1 < maxErr) →
    (integrateLoop sp fast maxErr f fuel iter n np s sum_old).1 =
      Except.error AbortKind.nonConvergence := by
  intro fuel
  induction fuel with
  | zero =>
    intro iter n np s sum_old _
    rfl
  | succ fuel ih =>
    intro iter n np s sum_old hall
    have hhead := hall (sum_old, iterSum sp fast f iter n np s) (List.mem_cons_self _ _)
    rw [integrateLoop_succ, if_neg hhead.1, if_neg hhead.2]
    exact ih _ _ _ _ _ fun p hp => hall p (List.mem_cons_of_mem _ hp)

theorem integrateLoop_ok_mem_trace (sp : GridSpacing) (fast : Bool) (maxErr : ℚ)
    (f : GSFunc) : ∀ (fuel iter n np : ℕ) (s : EvalState) (sum_old v : ℚ),
    (integrateLoop sp fast maxErr f fuel iter n np s sum_old).1 = Except.ok v →
    ∃ p ∈ iterTrace sp fast f fuel iter n np s sum_old,
      (p.2 + p.1 = 0 ∧ v = 0) ∨ (computedErr p.2 p.1 < maxErr ∧ v = p.2) := by
  intro fuel
  induction fuel with
  | zero =>
    intro iter n np s sum_old v h
    simp [integrateLoop] at h
  | succ fuel ih =>
    intro iter n np s sum_old v h
    rw [integrateLoop_succ] at h
    by_cases h1 : iterSum sp fast f iter n np s + sum_old = 0
    · rw [if_pos h1] at h
      refine ⟨(sum_old, iterSum sp fast f iter n np s), List.mem_cons_self _ _,
        Or.inl ⟨h1, ?_⟩⟩
      simpa using h.symm
    · rw [if_neg h1] at h
      by_cases h2 : computedErr (iterSum sp fast f iter n np s) sum_old < maxErr
      · rw [if_pos h2] at h
        refine ⟨(sum_old, iterSum sp fast f iter n np s), List.mem_cons_self _ _,
          Or.inr ⟨h2, ?_⟩⟩
        simpa using h.symm
      · rw [if_neg h2] at h
        obtain ⟨p, hp, hcase⟩ := ih _ _ _ _ _ _ h
        exact ⟨p, List.mem_cons_of_mem _ hp, hcase⟩

/-- C5: `Integrate` aborts rather than return a non-converged value.  If
every iteration of the run's own trace (the `(sum_prev, sum)` pairs the
loop actually computes) misses the zero-sum guard and keeps the computed
error at or above the threshold, `Integrate` returns no value and aborts
with `nonConvergence`; conversely, whenever `Integrate` returns a value it
comes from an iteration of that same trace which either fired the guard
(value `0`) or computed an error strictly below the threshold on its own
`(sum_prev, sum)` pair. -/
theorem C5_no_silent_nonconvergence (cfg : Simpson2DConfig) (axis0 axis1 : GridAxis)
    (init0 init1 : ℕ) (f : GSFunc) (h2 : f.nparams = 2) :
    ((∀ p ∈ iterTrace cfg.fSpacing cfg.fFastDensityIncrease f cfg.fIMaxConv 0 cfg.fNo 0
        (initState axis0 axis1 init0 init1) 9999999,
      p.2 + p.1 ≠ 0 ∧ ¬ computedErr p.2 p.1 < cfg.fMaxPcntErr) →
      Simpson2D.Integrate cfg axis0 axis1 init0 init1 f =
        Except.error AbortKind.nonConvergence) ∧
    (∀ v : ℚ, Simpson2D.Integrate cfg axis0 axis1 init0 init1 f = Except.ok v →
      ∃ p ∈ iterTrace cfg.fSpacing cfg.fFastDensityIncrease f cfg.fIMaxConv 0 cfg.fNo 0
          (initState axis0 axis1 init0 init1) 9999999,
        (p.2 + p.1 = 0 ∧ v = 0) ∨ (computedErr p.2 p.1 < cfg.fMaxPcntErr ∧ v = p.2)) := by
  have hnn : ¬ f.nparams ≠ 2 := by simp [h2]
  constructor
  · intro hall
    unfold Simpson2D.Integrate Simpson2D.IntegrateRun
    rw [if_neg hnn]
    exact integrateLoop_abort_of_trace _ _ _ _ _ _ _ _ _ _ hall
  · intro v h
    unfold Simpson2D.Integrate Simpson2D.IntegrateRun at h
    rw [if_neg hnn] at h
    exact integrateLoop_ok_mem_trace _ _ _ _ _ _ _ _ _ _ _ h

/-- A configuration used by the witnesses: a single iteration allowed, a
huge error threshold, linear spacing, fast density increase. -/
def cfgW : Simpson2DConfig :=
  { fIMaxConv := 1, fNo := 0, fMaxPcntErr := 1000000000,
    fSpacing := GridSpacing.kGSpLinear, fFastDensityIncrease := true }

/-- A configuration with one iteration and threshold `1` percent, linear
spacing, fast density increase, used by the C5 witness and the C10
counterexample. -/
def cfg10 : Simpson2DConfig :=
  { fIMaxConv := 1, fNo := 0, fMaxPcntErr := 1,
    fSpacing := GridSpacing.kGSpLinear, fFastDensityIncrease := true }

/-- Witness for C5, exercising both directions on concrete runs: a run
whose single-iteration trace never converges aborts with
`nonConvergence`, and a converging run returns `4/9`, which the theorem
traces back to an iteration of its own trace. -/
theorem C5_witness :
    (∀ p ∈ iterTrace GridSpacing.kGSpLinear true (constFunc (-89999991)) 1 0 0 0
        (initState natAxis natAxis 0 0) 9999999,
      p.2 + p.1 ≠ 0 ∧ ¬ computedErr p.2 p.1 < 1) ∧
    Simpson2D.Integrate cfg10 natAxis natAxis 0 0 (constFunc (-89999991)) =
      Except.error AbortKind.nonConvergence ∧
    Simpson2D.Integrate cfgW natAxis natAxis 0 0 (constFunc 1) = Except.ok (4/9) ∧
    ∃ p ∈ iterTrace GridSpacing.kGSpLinear true (constFunc 1) 1 0 0 0
        (initState natAxis natAxis 0 0) 9999999,
      (p.2 + p.1 = 0 ∧ (4/9 : ℚ) = 0) ∨
        (computedErr p.2 p.1 < 1000000000 ∧ (4/9 : ℚ) = p.2) := by
  have hsA : iterSum GridSpacing.kGSpLinear true (constFunc (-89999991)) 0 0 0
      (initState natAxis natAxis 0 0) = -39999996 := by
    rw [iterSum_const22]
    norm_num
  have hallA : ∀ p ∈ iterTrace GridSpacing.kGSpLinear true (constFunc (-89999991)) 1 0 0 0
      (initState natAxis natAxis 0 0) 9999999,
      p.2 + p.1 ≠ 0 ∧ ¬ computedErr p.2 p.1 < 1 := by
    intro p hp
    simp only [iterTrace, List.mem_cons, List.mem_nil_iff, or_false] at hp
    subst hp
    refine ⟨?_, ?_⟩
    · rw [hsA]
      norm_num
    · rw [hsA]
      unfold computedErr
      rw [show ((-39999996 : ℚ) - 9999999) / (-39999996 + 9999999) = 5 / 3 from by norm_num,
        abs_of_pos (by norm_num : (0 : ℚ) < 5 / 3)]
      norm_num
  have hs := iterSum_const22 1
  have hz : ¬ (iterSum GridSpacing.kGSpLinear true (constFunc 1) 0 0 0
      (initState natAxis natAxis 0 0) + 9999999 = 0) := by
    rw [hs]
    norm_num
  have he : computedErr (iterSum GridSpacing.kGSpLinear true (constFunc 1) 0 0 0
      (initState natAxis natAxis 0 0)) 9999999 < 1000000000 := by
    rw [hs]
    unfold computedErr
    rw [show ((4 * 1 / 9 : ℚ) - 9999999) / (4 * 1 / 9 + 9999999) = -(89999987 / 89999995)
        from by norm_num,
      abs_neg, abs_of_pos (by norm_num : (0 : ℚ) < 89999987 / 89999995)]
    norm_num
  have hrun : Simpson2D.Integrate cfgW natAxis natAxis 0 0 (constFunc 1) = Except.ok (4/9) := by
    show (integrateLoop GridSpacing.kGSpLinear true 1000000000 (constFunc 1) (0 + 1) 0 0 0
        (initState natAxis natAxis 0 0) 9999999).1 = Except.ok (4/9)
    rw [integrateLoop_succ, if_neg hz, if_pos he]
    show Except.ok (iterSum GridSpacing.kGSpLinear true (constFunc 1) 0 0 0
        (initState natAxis natAxis 0 0)) = Except.ok (4/9)
    rw [hs]
    norm_num
  exact ⟨hallA,
    (C5_no_silent_nonconvergence cfg10 natAxis natAxis 0 0 (constFunc (-89999991)) rfl).1 hallA,
    hrun,
    (C5_no_silent_nonconvergence cfgW natAxis natAxis 0 0 (constFunc 1) rfl).2 (4/9) hrun⟩

theorem integrateLoop_ne_assertFail (sp : GridSpacing) (fast : Bool) (maxErr : ℚ)
    (f : GSFunc) : ∀ (fuel iter n np : ℕ) (s : EvalState) (sum_old : ℚ),
    (integrateLoop sp fast maxErr f fuel iter n np s sum_old).1 ≠
      Except.error AbortKind.assertFail := by
  intro fuel
  induction fuel with
  | zero =>
    intro iter n np s sum_old
    simp [integrateLoop]
  | succ fuel ih =>
    intro iter n np s sum_old
    rw [integrateLoop_succ]
    by_cases h1 : iterSum sp fast f iter n np s + sum_old = 0
    · rw [if_pos h1]
      simp
    · rw [if_neg h1]
      by_cases h2 : computedErr (iterSum sp fast f iter n np s) sum_old < maxErr
      · rw [if_pos h2]
        simp
      · rw [if_neg h2]
        exact ih _ _ _ _ _

/-- A 3-parameter function adapter, violating the 2-D contract. -/
def f3 : GSFunc :=
  { nparams := 3, eval := fun _ => 1 }

/-- C7: a function whose `NParams()` differs from 2 makes `Integrate` abort
on the assertion at once — before any grid is touched and without a single
function evaluation (the call log is empty) — while for a 2-parameter
function the assertion branch is unreachable. -/
theorem C7_dimension_assert (cfg : Simpson2DConfig) (axis0 axis1 : GridAxis)
    (init0 init1 : ℕ) (f : GSFunc) :
    (f.nparams ≠ 2 →
      Simpson2D.IntegrateRun cfg axis0 axis1 init0 init1 f =
        (Except.error AbortKind.assertFail, [])) ∧
    (f.nparams = 2 →
      Simpson2D.Integrate cfg axis0 axis1 init0 init1 f ≠
        Except.error AbortKind.assertFail) := by
  constructor
  · intro hn
    unfold Simpson2D.IntegrateRun
    rw [if_pos hn]
  · intro h2
    unfold Simpson2D.Integrate Simpson2D.IntegrateRun
    rw [if_neg (by simp [h2])]
    exact integrateLoop_ne_assertFail _ _ _ _ _ _ _ _ _ _

/-- Witness for C7: the 3-parameter function aborts with an empty call log,
the 2-parameter constant function does not hit the assertion. -/
theorem C7_witness :
    f3.nparams ≠ 2 ∧
    Simpson2D.IntegrateRun cfgW natAxis natAxis 0 0 f3 =
      (Except.error AbortKind.assertFail, []) ∧
    (constFunc 1).nparams = 2 ∧
    Simpson2D.Integrate cfgW natAxis natAxis 0 0 (constFunc 1) ≠
      Except.error AbortKind.assertFail :=
  ⟨by decide, (C7_dimension_assert cfgW natAxis natAxis 0 0 f3).1 (by decide),
    by decide, (C7_dimension_assert cfgW natAxis natAxis 0 0 (constFunc 1)).2 rfl⟩

/-- C8: at any iteration where the current Simpson sum plus the previous
sum is exactly `0`, the loop returns `0` immediately — for every error
threshold, showing that neither the error computation nor the convergence
test is consulted. -/
theorem C8_zero_guard (sp : GridSpacing) (fast : Bool) (f : GSFunc)
    (fuel iter n np : ℕ) (s : EvalState) (sum_old : ℚ)
    (h : iterSum sp fast f iter n np s + sum_old = 0) :
    ∀ maxErr : ℚ, integrateLoop sp fast maxErr f (fuel + 1) iter n np s sum_old =
      (Except.ok 0, (nextState sp fast f iter n np s).calls) := by
  intro maxErr
  rw [integrateLoop_succ, if_pos h]

/-- Witness for C8: a concrete run whose first Simpson sum is exactly
`-9999999` (so that `sum + sum_old = 0` against the sentinel) returns `0`
even with threshold `0`. -/
theorem C8_witness :
    iterSum GridSpacing.kGSpLinear true (constFunc (-89999991/4)) 0 0 0
        (initState natAxis natAxis 0 0) + 9999999 = 0 ∧
    integrateLoop GridSpacing.kGSpLinear true 0 (constFunc (-89999991/4)) 1 0 0 0
        (initState natAxis natAxis 0 0) 9999999 =
      (Except.ok 0, (nextState GridSpacing.kGSpLinear true (constFunc (-89999991/4)) 0 0 0
        (initState natAxis natAxis 0 0)).calls) := by
  have h : iterSum GridSpacing.kGSpLinear true (constFunc (-89999991/4)) 0 0 0
      (initState natAxis natAxis 0 0) + 9999999 = 0 := by
    rw [iterSum_const22]
    norm_num
  exact ⟨h, C8_zero_guard GridSpacing.kGSpLinear true (constFunc (-89999991/4))
    0 0 0 0 (initState natAxis natAxis 0 0) 9999999 h 0⟩

/-- C3: in slow mode (`fastDensityIncrease = false`), an iteration with
`iter % 2 = 0` refines axis 0 only (axis 1 keeps its point count) and the
following iteration refines axis 1 only (axis 0 keeps its count), after
which both axes hold `2^n + 1` points — one density level per cycle of two
iterations; in fast mode every iteration sets both axes to `2^n + 1`
simultaneously. -/
theorem C3_density_cycling (iter n np : ℕ) (fm : FunctionMap) (h : iter % 2 = 0) :
    ((densityStep false iter n np fm).2.2.np0 = 2 ^ n + 1 ∧
      (densityStep false iter n np fm).2.2.np1 = fm.np1 ∧
      (densityStep false (iter + 1) (densityStep false iter n np fm).1
          (densityStep false iter n np fm).2.1 (densityStep false iter n np fm).2.2).2.2.np0
        = (densityStep false iter n np fm).2.2.np0 ∧
      (densityStep false (iter + 1) (densityStep false iter n np fm).1
          (densityStep false iter n np fm).2.1 (densityStep false iter n np fm).2.2).2.2.np1
        = 2 ^ n + 1) ∧
    ∀ (j m k : ℕ) (g : FunctionMap),
      (densityStep true j m k g).2.2.np0 = 2 ^ m + 1 ∧
      (densityStep true j m k g).2.2.np1 = 2 ^ m + 1 := by
  have h1 : ¬ (iter + 1) % 2 = 0 := by omega
  constructor
  · simp [densityStep, FunctionMap.IncreaseGridDensity, h, h1]
  · intro j m k g
    simp [densityStep, FunctionMap.IncreaseGridDensity]

/-- Witness for C3 at iteration `0`, exponent `2`: axis 0 is refined to
`5` points first, axis 1 keeps its count and is refined to `5` on the
following iteration. -/
theorem C3_witness :
    (0 : ℕ) % 2 = 0 ∧
    (densityStep false 0 2 7 fmXY).2.2.np0 = 2 ^ 2 + 1 ∧
    (densityStep false 0 2 7 fmXY).2.2.np1 = fmXY.np1 ∧
    (densityStep false (0 + 1) (densityStep false 0 2 7 fmXY).1
        (densityStep false 0 2 7 fmXY).2.1 (densityStep false 0 2 7 fmXY).2.2).2.2.np1
      = 2 ^ 2 + 1 := by
  have hc := C3_density_cycling 0 2 7 fmXY rfl
  exact ⟨rfl, hc.1.1, hc.1.2.1, hc.1.2.2.2⟩

/-- C2 counterexample: at `sum = 1`, `sum_prev = -3` (so `sum + sum_prev =
-2 < 0`) the code's error is `+400`, not the claimed
`200*|sum - sum_prev|/(sum + sum_prev) = -400`, and it is not negative. -/
theorem C2_counterexample :
    computedErr 1 (-3) = 400 ∧
    200 * |(1 : ℚ) - (-3)| / (1 + (-3)) = -400 ∧
    ¬ computedErr 1 (-3) < 0 := by
  refine ⟨?_, by norm_num, ?_⟩
  · unfold computedErr
    norm_num
  · unfold computedErr
    norm_num

/-- C2 amended: the relative error computed at each iteration is
`200 * |sum - sum_prev| / |sum + sum_prev|` — the absolute value is applied
to the whole quotient — and is therefore never negative, in particular also
when `sum + sum_prev < 0`. -/
theorem C2_amended_err_formula (sum sum_old : ℚ) :
    computedErr sum sum_old = 200 * |sum - sum_old| / |sum + sum_old| ∧
    0 ≤ computedErr sum sum_old := by
  unfold computedErr
  constructor
  · rw [abs_div]
    ring
  · positivity

/-- C10 counterexample: a run whose first Simpson sum is `-39999996`
(`≠ -9999999`), for which the claimed quantity
`200*|sum - 9999999|/(sum + 9999999)` is strictly below the threshold `1`,
yet `Integrate` does not return the sum as converged — it aborts, because
the code compares `200*|(sum - 9999999)/(sum + 9999999)| = 1000/3` instead. -/
theorem C10_counterexample :
    iterSum GridSpacing.kGSpLinear true (constFunc (-89999991)) 0 0 0
        (initState natAxis natAxis 0 0) = -39999996 ∧
    (-39999996 : ℚ) ≠ -9999999 ∧
    200 * |(-39999996 : ℚ) - 9999999| / (-39999996 + 9999999) < cfg10.fMaxPcntErr ∧
    Simpson2D.Integrate cfg10 natAxis natAxis 0 0 (constFunc (-89999991)) =
      Except.error AbortKind.nonConvergence := by
  have hs : iterSum GridSpacing.kGSpLinear true (constFunc (-89999991)) 0 0 0
      (initState natAxis natAxis 0 0) = -39999996 := by
    rw [iterSum_const22]
    norm_num
  have hz : ¬ (iterSum GridSpacing.kGSpLinear true (constFunc (-89999991)) 0 0 0
      (initState natAxis natAxis 0 0) + 9999999 = 0) := by
    rw [hs]
    norm_num
  have he : ¬ computedErr (iterSum GridSpacing.kGSpLinear true (constFunc (-89999991)) 0 0 0
      (initState natAxis natAxis 0 0)) 9999999 < 1 := by
    rw [hs]
    unfold computedErr
    rw [show ((-39999996 : ℚ) - 9999999) / (-39999996 + 9999999) = 5 / 3 from by norm_num,
      abs_of_pos (by norm_num : (0 : ℚ) < 5 / 3)]
    norm_num
  refine ⟨hs, by norm_num, ?_, ?_⟩
  · show 200 * |(-39999996 : ℚ) - 9999999| / (-39999996 + 9999999) < 1
    norm_num
  · show (integrateLoop GridSpacing.kGSpLinear true 1 (constFunc (-89999991)) (0 + 1) 0 0 0
        (initState natAxis natAxis 0 0) 9999999).1 = Except.error AbortKind.nonConvergence
    rw [integrateLoop_succ, if_neg hz, if_neg he]
    rfl

/-- C10 amended: on the first iteration both the zero-sum guard and the
convergence test compare against the sentinel previous sum `9999999`: the
guard returns `0` iff the first Simpson sum is exactly `-9999999`, and
otherwise the first iteration returns that sum as converged iff
`200*|(sum - 9999999)/(sum + 9999999)|` (the absolute value applied to the
whole quotient) is strictly below `maxPercentError`, regardless of how far
the sum is from the true integral; if neither holds the loop continues with
the first sum as the previous sum. -/
theorem C10_sentinel_first_iteration (cfg : Simpson2DConfig) (axis0 axis1 : GridAxis)
    (init0 init1 : ℕ) (f : GSFunc) (fuel : ℕ)
    (hfu : cfg.fIMaxConv = fuel + 1) (h2 : f.nparams = 2) :
    (iterSum cfg.fSpacing cfg.fFastDensityIncrease f 0 cfg.fNo 0
        (initState axis0 axis1 init0 init1) = -9999999 →
      Simpson2D.Integrate cfg axis0 axis1 init0 init1 f = Except.ok 0) ∧
    (iterSum cfg.fSpacing cfg.fFastDensityIncrease f 0 cfg.fNo 0
        (initState axis0 axis1 init0 init1) ≠ -9999999 →
      (computedErr (iterSum cfg.fSpacing cfg.fFastDensityIncrease f 0 cfg.fNo 0
          (initState axis0 axis1 init0 init1)) 9999999 < cfg.fMaxPcntErr →
        Simpson2D.Integrate cfg axis0 axis1 init0 init1 f =
          Except.ok (iterSum cfg.fSpacing cfg.fFastDensityIncrease f 0 cfg.fNo 0
            (initState axis0 axis1 init0 init1))) ∧
      (¬ computedErr (iterSum cfg.fSpacing cfg.fFastDensityIncrease f 0 cfg.fNo 0
          (initState axis0 axis1 init0 init1)) 9999999 < cfg.fMaxPcntErr →
        Simpson2D.IntegrateRun cfg axis0 axis1 init0 init1 f =
          integrateLoop cfg.fSpacing cfg.fFastDensityIncrease cfg.fMaxPcntErr f fuel 1
            (densityStep cfg.fFastDensityIncrease 0 cfg.fNo 0
              (initState axis0 axis1 init0 init1).fm).1
            (densityStep cfg.fFastDensityIncrease 0 cfg.fNo 0
              (initState axis0 axis1 init0 init1).fm).2.1
            (nextState cfg.fSpacing cfg.fFastDensityIncrease f 0 cfg.fNo 0
              (initState axis0 axis1 init0 init1))
            (iterSum cfg.fSpacing cfg.fFastDensityIncrease f 0 cfg.fNo 0
              (initState axis0 axis1 init0 init1)))) := by
  have hnn : ¬ f.nparams ≠ 2 := by simp [h2]
  refine ⟨?_, ?_⟩
  · intro hs
    have hz : iterSum cfg.fSpacing cfg.fFastDensityIncrease f 0 cfg.fNo 0
        (initState axis0 axis1 init0 init1) + 9999999 = 0 := by
      rw [hs]
      norm_num
    unfold Simpson2D.Integrate Simpson2D.IntegrateRun
    rw [if_neg hnn, hfu, integrateLoop_succ, if_pos hz]
  · intro hs
    have hz : ¬ (iterSum cfg.fSpacing cfg.fFastDensityIncrease f 0 cfg.fNo 0
        (initState axis0 axis1 init0 init1) + 9999999 = 0) := by
      intro hc
      exact hs (by linarith)
    refine ⟨?_, ?_⟩
    · intro he
      unfold Simpson2D.Integrate Simpson2D.IntegrateRun
      rw [if_neg hnn, hfu, integrateLoop_succ, if_neg hz, if_pos he]
    · intro he
      unfold Simpson2D.IntegrateRun
      rw [if_neg hnn, hfu, integrateLoop_succ, if_neg hz, if_neg he]

/-- Witness for the amended C10: a concrete first iteration whose sum is
not `-9999999` and whose (quotient-absolute) error is below the threshold
returns that first sum as converged. -/
theorem C10_witness :
    cfgW.fIMaxConv = 0 + 1 ∧
    (constFunc 1).nparams = 2 ∧
    iterSum GridSpacing.kGSpLinear true (constFunc 1) 0 0 0 (initState natAxis natAxis 0 0)
      ≠ -9999999 ∧
    computedErr (iterSum GridSpacing.kGSpLinear true (constFunc 1) 0 0 0
      (initState natAxis natAxis 0 0)) 9999999 < 1000000000 ∧
    Simpson2D.Integrate cfgW natAxis natAxis 0 0 (constFunc 1) =
      Except.ok (iterSum GridSpacing.kGSpLinear true (constFunc 1) 0 0 0
        (initState natAxis natAxis 0 0)) := by
  have hne : iterSum GridSpacing.kGSpLinear true (constFunc 1) 0 0 0
      (initState natAxis natAxis 0 0) ≠ -9999999 := by
    rw [iterSum_const22]
    norm_num
  have he : computedErr (iterSum GridSpacing.kGSpLinear true (constFunc 1) 0 0 0
      (initState natAxis natAxis 0 0)) 9999999 < 1000000000 := by
    rw [iterSum_const22]
    unfold computedErr
    rw [show ((4 * 1 / 9 : ℚ) - 9999999) / (4 * 1 / 9 + 9999999) = -(89999987 / 89999995)
        from by norm_num,
      abs_neg, abs_of_pos (by norm_num : (0 : ℚ) < 89999987 / 89999995)]
    norm_num
  exact ⟨rfl, rfl, hne, he,
    ((C10_sentinel_first_iteration cfgW natAxis natAxis 0 0 (constFunc 1) 0 rfl rfl).2
      hne).1 he⟩

end Genie
